import Mathlib

/-!
Verification of the Animals sqlite demo script (`scripts/db/init.js`).

The script opens the database `animals.db`, ensures the `Animals` table
exists, inserts three fixed records, runs an unfiltered and a filtered
SELECT, updates and deletes the record named "Dog", and closes the
connection.  Every statement is issued at the top level of the file with
its own completion callback; a callback reports an engine error with
`console.error` and otherwise logs an informational message.

We shallowly embed the store (one `Animals` table of rows plus the
AUTOINCREMENT sequence counter), each SQL statement the script issues,
and the control flow of the script itself (which statements are issued, what the
callbacks log, and the process exit status).
-/

namespace AnimalsDB

/-- One row of the `Animals` table.  Schema (init.js lines 12-19):
`id INTEGER PRIMARY KEY AUTOINCREMENT, name TEXT NOT NULL,
habitat TEXT NOT NULL, life_expectancy INTEGER, in_danger INTEGER`.
`name` and `habitat` are NOT NULL, so they are plain strings;
`life_expectancy` and `in_danger` are nullable, so they are options. -/
structure Row where
  id : Nat
  name : String
  habitat : String
  life_expectancy : Option Int
  in_danger : Option Int
deriving Repr, DecidableEq

/-- The store: the list of table names present in `animals.db`, the rows
of the `Animals` table, and the AUTOINCREMENT sequence for `Animals`
(the largest rowid ever assigned, per sqlite AUTOINCREMENT semantics). -/
structure DB where
  tables : List String
  rows : List Row
  seq : Nat
deriving Repr, DecidableEq

/-- `CREATE TABLE [IF NOT EXISTS] Animals (...)` (init.js lines 12-25).
With `ifNotExists := true` (what the script issues) an existing table is
left untouched and no error is reported; without it, sqlite reports
`table Animals already exists`. -/
def runCreateTable (ifNotExists : Bool) (db : DB) : Except String DB :=
  if "Animals" ∈ db.tables then
    if ifNotExists then Except.ok db
    else Except.error "table Animals already exists"
  else
    Except.ok { db with tables := db.tables ++ ["Animals"] }

/-- `INSERT INTO Animals (name, habitat, life_expectancy, in_danger)
VALUES (?, ?, ?, ?)` (init.js lines 31-34).  AUTOINCREMENT assigns rowid
`seq + 1`, one larger than any rowid ever used, and `this.lastID` in
the callback is that rowid.  Errors if the table does not exist. -/
def insertRow (db : DB) (name habitat : String) (le ind : Option Int) :
    Except String (DB × Nat) :=
  if "Animals" ∈ db.tables then
    Except.ok
      ({ db with
          rows := db.rows ++
            [{ id := db.seq + 1,
               name := name,
               habitat := habitat,
               life_expectancy := le,
               in_danger := ind }],
          seq := db.seq + 1 },
        db.seq + 1)
  else
    Except.error "no such table: Animals"

/-- `SELECT * FROM Animals` (init.js line 58). -/
def selectAll (db : DB) : Except String (List Row) :=
  if "Animals" ∈ db.tables then Except.ok db.rows
  else Except.error "no such table: Animals"

/-- The sqlite predicate `life_expectancy > t`: TRUE only when the value
is present and greater; comparison with NULL is NULL, which a WHERE
clause does not select. -/
def rowMatchesOver (t : Int) (r : Row) : Bool :=
  match r.life_expectancy with
  | some v => decide (t < v)
  | none => false

/-- `SELECT * FROM Animals WHERE life_expectancy > ?` with parameter `t`
(init.js line 67; the script passes 50). -/
def selectOver (db : DB) (t : Int) : Except String (List Row) :=
  if "Animals" ∈ db.tables then
    Except.ok (db.rows.filter (rowMatchesOver t))
  else
    Except.error "no such table: Animals"

/-- Effect of `UPDATE Animals SET in_danger = ? WHERE name = ?` on one
row: a row whose name matches gets `in_danger := v`, any other row is
untouched. -/
def updateRow (v : Int) (nm : String) (r : Row) : Row :=
  if r.name = nm then { r with in_danger := some v } else r

/-- `UPDATE Animals SET in_danger = ? WHERE name = ?` (init.js line 77;
the script passes `[1, "Dog"]`).  `this.changes` in the callback is the
number of rows the statement touched, i.e. the rows matching the WHERE
clause. -/
def updateInDanger (db : DB) (v : Int) (nm : String) :
    Except String (DB × Nat) :=
  if "Animals" ∈ db.tables then
    Except.ok
      ({ db with rows := db.rows.map (updateRow v nm) },
        (db.rows.filter (fun r => r.name == nm)).length)
  else
    Except.error "no such table: Animals"

/-- `DELETE FROM Animals WHERE name = ?` (init.js line 85; the script
passes `["Dog"]`).  `this.changes` is the number of rows removed. -/
def deleteByName (db : DB) (nm : String) : Except String (DB × Nat) :=
  if "Animals" ∈ db.tables then
    Except.ok
      ({ db with rows := db.rows.filter (fun r => !(r.name == nm)) },
        (db.rows.filter (fun r => r.name == nm)).length)
  else
    Except.error "no such table: Animals"

/-- One console line the script writes: `console.log` output (`info`,
or `infoRows` when a result set is logged alongside the label) or
`console.error` output (`errorMsg`). -/
inductive LogEntry where
  | info (msg : String)
  | infoRows (msg : String) (rows : List Row)
  | errorMsg (msg : String)
deriving Repr, DecidableEq

/-- The callback passed to `new sqlite3.Database("animals.db", ...)`
(init.js lines 4-9): on error it writes the diagnostic and returns, on
success it logs the connection message. -/
def openCallback (err : Option String) : List LogEntry :=
  match err with
  | some m => [LogEntry.errorMsg ("Error opening database: " ++ m)]
  | none => [LogEntry.info "Connected to the animals database."]

/-- One statement the script hands to the engine. -/
inductive Step where
  | createTableStep
  | insertStep (name habitat : String) (le ind : Int)
  | selectAllStep
  | selectOverStep (t : Int)
  | updateStep (v : Int) (nm : String)
  | deleteStep (nm : String)
  | closeStep
deriving Repr, DecidableEq

/-- The statements the script file issues after the `new
sqlite3.Database` expression, in source order (init.js lines 12-100). -/
def issuedAfterOpen : List Step :=
  [Step.createTableStep,
   Step.insertStep "Elephant" "Savannah" 60 1,
   Step.insertStep "Turtle" "Ocean" 100 0,
   Step.insertStep "Dog" "Domestic" 13 0,
   Step.selectAllStep,
   Step.selectOverStep 50,
   Step.updateStep 1 "Dog",
   Step.deleteStep "Dog",
   Step.closeStep]

/-- Which statements the script issues, as a function of the open
outcome.  In init.js every `db.run`/`db.all`/`db.close` call is a
top-level statement of the module, not nested inside the open callback,
so the issued statements do not depend on whether the open reported an
error: only the log line of the open callback does. -/
def scriptIssuedSteps (openErr : Option String) : List Step :=
  issuedAfterOpen

/-- Engine errors injected per step: `none` means the engine reports no
error for that statement, `some m` means the statement fails with
message `m` (and therefore has no effect on the store). -/
structure Faults where
  openErr : Option String
  tableErr : Option String
  elephantErr : Option String
  turtleErr : Option String
  dogErr : Option String
  selectAllErr : Option String
  selectOverErr : Option String
  updateErr : Option String
  deleteErr : Option String
  closeErr : Option String
deriving Repr, DecidableEq

/-- The `CREATE TABLE` statement plus its callback (init.js lines
12-25): an error is logged with `console.error` and the callback
returns; success logs the informational line. -/
def createTableStepRun (fault : Option String) (db : DB) :
    DB × List LogEntry :=
  match fault with
  | some m => (db, [LogEntry.errorMsg ("Error creating table: " ++ m)])
  | none =>
    match runCreateTable true db with
    | Except.ok db' =>
        (db', [LogEntry.info
          "Animals table created (if it didn\x27t already exist)."])
    | Except.error m =>
        (db, [LogEntry.errorMsg ("Error creating table: " ++ m)])

/-- One `db.run(insertQuery, [...])` call plus its callback (init.js
lines 37-56): an error is logged as `Error inserting <label>: ...`,
success logs the assigned rowid (`this.lastID`). -/
def insertStepRun (label name habitat : String) (le ind : Option Int)
    (fault : Option String) (db : DB) : DB × List LogEntry :=
  match fault with
  | some m =>
      (db, [LogEntry.errorMsg ("Error inserting " ++ label ++ ": " ++ m)])
  | none =>
    match insertRow db name habitat le ind with
    | Except.ok (db', rowid) =>
        (db', [LogEntry.info
          ("A row has been inserted with rowid " ++ toString rowid)])
    | Except.error m =>
        (db, [LogEntry.errorMsg ("Error inserting " ++ label ++ ": " ++ m)])

/-- `db.all("SELECT * FROM Animals", ...)` plus its callback (init.js
lines 58-63). -/
def selectAllStepRun (fault : Option String) (db : DB) :
    DB × List LogEntry :=
  match fault with
  | some m => (db, [LogEntry.errorMsg ("Error fetching data: " ++ m)])
  | none =>
    match selectAll db with
    | Except.ok rows => (db, [LogEntry.infoRows "All Animals:" rows])
    | Except.error m =>
        (db, [LogEntry.errorMsg ("Error fetching data: " ++ m)])

/-- `db.all("SELECT * FROM Animals WHERE life_expectancy > ?", [50], ...)`
plus its callback (init.js lines 67-72). -/
def selectOverStepRun (fault : Option String) (db : DB) :
    DB × List LogEntry :=
  match fault with
  | some m => (db, [LogEntry.errorMsg ("Error fetching data: " ++ m)])
  | none =>
    match selectOver db 50 with
    | Except.ok rows =>
        (db, [LogEntry.infoRows
          "Animals with life expectancy over 50 years:" rows])
    | Except.error m =>
        (db, [LogEntry.errorMsg ("Error fetching data: " ++ m)])

/-- The UPDATE statement plus its callback (init.js lines 77-82):
success logs `Rows updated: ${this.changes}`. -/
def updateStepRun (fault : Option String) (db : DB) :
    DB × List LogEntry :=
  match fault with
  | some m => (db, [LogEntry.errorMsg ("Error updating data: " ++ m)])
  | none =>
    match updateInDanger db 1 "Dog" with
    | Except.ok (db', changes) =>
        (db', [LogEntry.info ("Rows updated: " ++ toString changes)])
    | Except.error m =>
        (db, [LogEntry.errorMsg ("Error updating data: " ++ m)])

/-- The DELETE statement plus its callback (init.js lines 85-90):
success logs `Rows deleted: ${this.changes}`. -/
def deleteStepRun (fault : Option String) (db : DB) :
    DB × List LogEntry :=
  match fault with
  | some m => (db, [LogEntry.errorMsg ("Error deleting data: " ++ m)])
  | none =>
    match deleteByName db "Dog" with
    | Except.ok (db', changes) =>
        (db', [LogEntry.info ("Rows deleted: " ++ toString changes)])
    | Except.error m =>
        (db, [LogEntry.errorMsg ("Error deleting data: " ++ m)])

/-- `db.close(...)` plus its callback (init.js lines 95-100). -/
def closeStepRun (fault : Option String) (db : DB) :
    DB × List LogEntry :=
  match fault with
  | some m =>
      (db, [LogEntry.errorMsg ("Error closing the database: " ++ m)])
  | none => (db, [LogEntry.info "Database connection closed."])

/-- Outcome of one whole run of the script: the final store, the console
lines, and the process exit status. -/
structure ScriptResult where
  finalDB : DB
  logs : List LogEntry
  exitCode : Nat
deriving Repr, DecidableEq

/-- One run of init.js from store `db0` with the engine errors `f`.  The
statements run in issue order (the engine serializes them).  Every
callback handles its own error by logging it and returning, so no error
escapes a callback and the process exit status is 0 regardless of
failures. -/
def runScript (f : Faults) (db0 : DB) : ScriptResult :=
  let s1 := createTableStepRun f.tableErr db0
  let s2 := insertStepRun "Elephant" "Elephant" "Savannah" (some 60)
    (some 1) f.elephantErr s1.1
  let s3 := insertStepRun "Turtle" "Turtle" "Ocean" (some 100) (some 0)
    f.turtleErr s2.1
  let s4 := insertStepRun "Dog" "Dog" "Domestic" (some 13) (some 0)
    f.dogErr s3.1
  let s5 := selectAllStepRun f.selectAllErr s4.1
  let s6 := selectOverStepRun f.selectOverErr s5.1
  let s7 := updateStepRun f.updateErr s6.1
  let s8 := deleteStepRun f.deleteErr s7.1
  let s9 := closeStepRun f.closeErr s8.1
  { finalDB := s9.1,
    logs := openCallback f.openErr ++ s1.2 ++ s2.2 ++ s3.2 ++ s4.2 ++
      s5.2 ++ s6.2 ++ s7.2 ++ s8.2 ++ s9.2,
    exitCode := 0 }

/-- The concrete rows the three fixed inserts of init.js produce when
they start from an empty table whose sequence counter is `s`. -/
def demoRows (s : Nat) : List Row :=
  [{ id := s + 1, name := "Elephant", habitat := "Savannah",
     life_expectancy := some 60, in_danger := some 1 },
   { id := s + 2, name := "Turtle", habitat := "Ocean",
     life_expectancy := some 100, in_danger := some 0 },
   { id := s + 3, name := "Dog", habitat := "Domestic",
     life_expectancy := some 13, in_danger := some 0 }]

/-- The identifier invariant of the `Animals` table: all rowids are
pairwise distinct, and every rowid is bounded by the AUTOINCREMENT
sequence counter (so it can never be reassigned). -/
def Inv (db : DB) : Prop :=
  (db.rows.map Row.id).Nodup ∧ ∀ r ∈ db.rows, r.id ≤ db.seq

/-- Concrete store used by witnesses: the table right after the three
fixed inserts ran from the fresh store. -/
def demoDB : DB :=
  { tables := ["Animals"], rows := demoRows 0, seq := 3 }

/-- Concrete store used by witnesses: `demoDB` after the UPDATE
statement of init.js. -/
def demoUpdatedDB : DB :=
  { tables := ["Animals"], rows := (demoRows 0).map (updateRow 1 "Dog"),
    seq := 3 }

/-- Concrete store used by witnesses: the fresh store right after the
table was created. -/
def emptyDB : DB :=
  { tables := ["Animals"], rows := [], seq := 0 }

/-- Concrete store used by witnesses: `emptyDB` after the Elephant
insert. -/
def demoDB1 : DB :=
  { tables := ["Animals"], rows := (demoRows 0).take 1, seq := 1 }

/-- Concrete store used by witnesses: `demoDB1` after the Turtle
insert. -/
def demoDB2 : DB :=
  { tables := ["Animals"], rows := (demoRows 0).take 2, seq := 2 }

/-- A concrete fault assignment used by witnesses: the engine reports
the error message `boom` for every statement of the script. -/
def allFaults : Faults :=
  { openErr := some "boom", tableErr := some "boom",
    elephantErr := some "boom", turtleErr := some "boom",
    dogErr := some "boom", selectAllErr := some "boom",
    selectOverErr := some "boom", updateErr := some "boom",
    deleteErr := some "boom", closeErr := some "boom" }

/-! ## Inversion lemmas for the statement embeddings -/

theorem insertRow_ok_inv {db db' : DB} {n h : String} {le ind : Option Int}
    {rid : Nat} (hok : insertRow db n h le ind = Except.ok (db', rid)) :
    "Animals" ∈ db.tables ∧ rid = db.seq + 1 ∧
      db'.tables = db.tables ∧ db'.seq = db.seq + 1 ∧
      db'.rows = db.rows ++
        [{ id := db.seq + 1, name := n, habitat := h,
           life_expectancy := le, in_danger := ind }] := by
  unfold insertRow at hok
  split at hok
  · rename_i hmem
    injection hok with hpair
    injection hpair with hdb hrid
    subst hdb
    exact ⟨hmem, hrid.symm, rfl, rfl, rfl⟩
  · exact absurd hok (by simp)

theorem selectOver_ok_inv {db : DB} {t : Int} {rows : List Row}
    (hok : selectOver db t = Except.ok rows) :
    "Animals" ∈ db.tables ∧ rows = db.rows.filter (rowMatchesOver t) := by
  unfold selectOver at hok
  split at hok
  · rename_i hmem
    injection hok with hrows
    exact ⟨hmem, hrows.symm⟩
  · exact absurd hok (by simp)

theorem updateInDanger_ok_inv {db db' : DB} {v : Int} {nm : String}
    {c : Nat} (hok : updateInDanger db v nm = Except.ok (db', c)) :
    "Animals" ∈ db.tables ∧
      db'.tables = db.tables ∧ db'.seq = db.seq ∧
      db'.rows = db.rows.map (updateRow v nm) ∧
      c = (db.rows.filter (fun r => r.name == nm)).length := by
  unfold updateInDanger at hok
  split at hok
  · rename_i hmem
    injection hok with hpair
    injection hpair with hdb hc
    subst hdb
    exact ⟨hmem, rfl, rfl, rfl, hc.symm⟩
  · exact absurd hok (by simp)

theorem deleteByName_ok_inv {db db' : DB} {nm : String} {c : Nat}
    (hok : deleteByName db nm = Except.ok (db', c)) :
    "Animals" ∈ db.tables ∧
      db'.tables = db.tables ∧ db'.seq = db.seq ∧
      db'.rows = db.rows.filter (fun r => !(r.name == nm)) ∧
      c = (db.rows.filter (fun r => r.name == nm)).length := by
  unfold deleteByName at hok
  split at hok
  · rename_i hmem
    injection hok with hpair
    injection hpair with hdb hc
    subst hdb
    exact ⟨hmem, rfl, rfl, rfl, hc.symm⟩
  · exact absurd hok (by simp)

theorem three_inserts_shape {db0 db1 db2 db3 : DB} {id1 id2 id3 : Nat}
    (hrows : db0.rows = [])
    (h1 : insertRow db0 "Elephant" "Savannah" (some 60) (some 1) =
      Except.ok (db1, id1))
    (h2 : insertRow db1 "Turtle" "Ocean" (some 100) (some 0) =
      Except.ok (db2, id2))
    (h3 : insertRow db2 "Dog" "Domestic" (some 13) (some 0) =
      Except.ok (db3, id3)) :
    "Animals" ∈ db3.tables ∧ db3.rows = demoRows db0.seq ∧
      id1 = db0.seq + 1 ∧ id2 = db0.seq + 2 ∧ id3 = db0.seq + 3 ∧
      db3.seq = db0.seq + 3 := by
  obtain ⟨hm1, hid1, ht1, hs1, hr1⟩ := insertRow_ok_inv h1
  obtain ⟨hm2, hid2, ht2, hs2, hr2⟩ := insertRow_ok_inv h2
  obtain ⟨hm3, hid3, ht3, hs3, hr3⟩ := insertRow_ok_inv h3
  have e2 : db2.seq = db0.seq + 2 := by omega
  rw [hrows] at hr1
  rw [hr1, hs1] at hr2
  rw [hr2, e2] at hr3
  refine ⟨?_, ?_, by omega, by omega, by omega, by omega⟩
  · rw [ht3, ht2, ht1]; exact hm1
  · rw [hr3]; simp [demoRows]

/-! ## Claims -/

/-- Claim C1: starting from an empty Animals table, after the three
fixed inserts complete, the query-all operation returns exactly three
records whose values equal the literal inputs (Elephant/Savannah/60/1,
Turtle/Ocean/100/0, Dog/Domestic/13/0), and the three assigned rowids
are pairwise distinct and distinct from every identifier previously
present in the store (every identifier ever assigned is at most the
sequence counter `db0.seq`). -/
theorem c1_insert_three_then_query_all
    (db0 db1 db2 db3 : DB) (id1 id2 id3 : Nat)
    (hrows : db0.rows = [])
    (h1 : insertRow db0 "Elephant" "Savannah" (some 60) (some 1) =
      Except.ok (db1, id1))
    (h2 : insertRow db1 "Turtle" "Ocean" (some 100) (some 0) =
      Except.ok (db2, id2))
    (h3 : insertRow db2 "Dog" "Domestic" (some 13) (some 0) =
      Except.ok (db3, id3)) :
    selectAll db3 = Except.ok
      [{ id := id1, name := "Elephant", habitat := "Savannah",
         life_expectancy := some 60, in_danger := some 1 },
       { id := id2, name := "Turtle", habitat := "Ocean",
         life_expectancy := some 100, in_danger := some 0 },
       { id := id3, name := "Dog", habitat := "Domestic",
         life_expectancy := some 13, in_danger := some 0 }] ∧
    id1 ≠ id2 ∧ id1 ≠ id3 ∧ id2 ≠ id3 ∧
    (∀ p : Nat, p ≤ db0.seq → p ≠ id1 ∧ p ≠ id2 ∧ p ≠ id3) := by
  obtain ⟨hmem, hrows3, e1, e2, e3, hseq⟩ :=
    three_inserts_shape hrows h1 h2 h3
  subst e1; subst e2; subst e3
  refine ⟨?_, by omega, by omega, by omega,
    fun p hp => ⟨by omega, by omega, by omega⟩⟩
  simp [selectAll, hmem, hrows3, demoRows]

/-- Witness for C1 at the concrete initial store `emptyDB`. -/
theorem c1_insert_three_then_query_all_witness :
    selectAll demoDB =
      Except.ok
        [{ id := 1, name := "Elephant", habitat := "Savannah",
           life_expectancy := some 60, in_danger := some 1 },
         { id := 2, name := "Turtle", habitat := "Ocean",
           life_expectancy := some 100, in_danger := some 0 },
         { id := 3, name := "Dog", habitat := "Domestic",
           life_expectancy := some 13, in_danger := some 0 }] ∧
    (1 : Nat) ≠ 2 ∧ (1 : Nat) ≠ 3 ∧ (2 : Nat) ≠ 3 ∧
    (∀ p : Nat, p ≤ 0 → p ≠ 1 ∧ p ≠ 2 ∧ p ≠ 3) :=
  c1_insert_three_then_query_all emptyDB demoDB1 demoDB2 demoDB
    1 2 3 rfl rfl rfl rfl

/-- Claim C2 counterexample: with a failing open (concrete engine
message `SQLITE_CANTOPEN: unable to open database file`) the script
still issues the create-table statement and the close statement — in
init.js every `db.run`/`db.all`/`db.close` call is a top-level module
statement, not sequenced on the open callback, so the claim that no
subsequent operation is issued after an open failure is false. -/
theorem c2_counterexample :
    Step.createTableStep ∈
      scriptIssuedSteps (some "SQLITE_CANTOPEN: unable to open database file") ∧
    Step.closeStep ∈
      scriptIssuedSteps (some "SQLITE_CANTOPEN: unable to open database file") := by
  constructor <;> simp [scriptIssuedSteps, issuedAfterOpen]

/-- Claim C2, amended: if the open-or-create step fails, the script
reports the diagnostic `Error opening database: <message>` and skips
only the success log of the open callback; every subsequent operation
(create-table, the three inserts, the two queries, update, delete,
close) is still issued, exactly as in the success case, because those
statements are not sequenced on completion of the open step. -/
theorem c2_open_failure_reports_and_still_issues (m : String) :
    openCallback (some m) =
      [LogEntry.errorMsg ("Error opening database: " ++ m)] ∧
    scriptIssuedSteps (some m) = scriptIssuedSteps none ∧
    scriptIssuedSteps (some m) = issuedAfterOpen := by
  exact ⟨rfl, rfl, rfl⟩

/-- Claim C3: starting from an empty table into which the three fixed
records were inserted, the update (set `in_danger = 1` where
`name = "Dog"`) succeeds with affected-row count 1, and afterwards the
record named "Dog" has its in-danger flag equal to 1 (true). -/
theorem c3_update_dog_sets_flag
    (db0 db1 db2 db3 : DB) (id1 id2 id3 : Nat)
    (hrows : db0.rows = [])
    (h1 : insertRow db0 "Elephant" "Savannah" (some 60) (some 1) =
      Except.ok (db1, id1))
    (h2 : insertRow db1 "Turtle" "Ocean" (some 100) (some 0) =
      Except.ok (db2, id2))
    (h3 : insertRow db2 "Dog" "Domestic" (some 13) (some 0) =
      Except.ok (db3, id3)) :
    ∃ db4 changes,
      updateInDanger db3 1 "Dog" = Except.ok (db4, changes) ∧
      changes = 1 ∧
      (∃ r, r ∈ db4.rows ∧ r.name = "Dog" ∧ r.in_danger = some 1) ∧
      (∀ r, r ∈ db4.rows → r.name = "Dog" → r.in_danger = some 1) := by
  obtain ⟨hmem, hrows3, e1, e2, e3, hseq⟩ :=
    three_inserts_shape hrows h1 h2 h3
  refine ⟨{ db3 with rows := db3.rows.map (updateRow 1 "Dog") },
    (db3.rows.filter (fun r => r.name == "Dog")).length,
    by simp [updateInDanger, hmem], ?_, ?_, ?_⟩
  · rw [hrows3]; simp [demoRows]
  · refine ⟨{ id := db0.seq + 3, name := "Dog", habitat := "Domestic",
              life_expectancy := some 13, in_danger := some 1 },
      ?_, rfl, rfl⟩
    simp only [hrows3]
    simp [demoRows, updateRow]
  · intro r hr hname
    simp only [hrows3] at hr
    simp [demoRows, updateRow] at hr
    rcases hr with h | h | h <;> subst h <;> simp_all

/-- Witness for C3 at the concrete initial store `emptyDB`. -/
theorem c3_update_dog_sets_flag_witness :
    ∃ db4 changes,
      updateInDanger demoDB 1 "Dog" = Except.ok (db4, changes) ∧
      changes = 1 ∧
      (∃ r, r ∈ db4.rows ∧ r.name = "Dog" ∧ r.in_danger = some 1) ∧
      (∀ r, r ∈ db4.rows → r.name = "Dog" → r.in_danger = some 1) :=
  c3_update_dog_sets_flag emptyDB demoDB1 demoDB2 demoDB
    1 2 3 rfl rfl rfl rfl

/-- Claim C4: starting from an empty table into which the three fixed
records were inserted, the delete (where `name = "Dog"`) succeeds with
affected-row count 1, and a query-all on the resulting store returns no
record named "Dog". -/
theorem c4_delete_dog
    (db0 db1 db2 db3 : DB) (id1 id2 id3 : Nat)
    (hrows : db0.rows = [])
    (h1 : insertRow db0 "Elephant" "Savannah" (some 60) (some 1) =
      Except.ok (db1, id1))
    (h2 : insertRow db1 "Turtle" "Ocean" (some 100) (some 0) =
      Except.ok (db2, id2))
    (h3 : insertRow db2 "Dog" "Domestic" (some 13) (some 0) =
      Except.ok (db3, id3)) :
    ∃ db4 changes,
      deleteByName db3 "Dog" = Except.ok (db4, changes) ∧
      changes = 1 ∧
      (∃ rowsAfter, selectAll db4 = Except.ok rowsAfter ∧
        ∀ r, r ∈ rowsAfter → r.name ≠ "Dog") := by
  obtain ⟨hmem, hrows3, e1, e2, e3, hseq⟩ :=
    three_inserts_shape hrows h1 h2 h3
  refine ⟨{ db3 with rows := db3.rows.filter (fun r => !(r.name == "Dog")) },
    (db3.rows.filter (fun r => r.name == "Dog")).length,
    by simp [deleteByName, hmem], ?_, ?_⟩
  · rw [hrows3]; simp [demoRows]
  · refine ⟨db3.rows.filter (fun r => !(r.name == "Dog")),
      by simp [selectAll, hmem], ?_⟩
    intro r hr
    simp only [hrows3] at hr
    simp [demoRows] at hr
    rcases hr with h | h <;> subst h <;> simp

/-- Witness for C4 at the concrete initial store `emptyDB`. -/
theorem c4_delete_dog_witness :
    ∃ db4 changes,
      deleteByName demoDB "Dog" = Except.ok (db4, changes) ∧
      changes = 1 ∧
      (∃ rowsAfter, selectAll db4 = Except.ok rowsAfter ∧
        ∀ r, r ∈ rowsAfter → r.name ≠ "Dog") :=
  c4_delete_dog emptyDB demoDB1 demoDB2 demoDB 1 2 3 rfl rfl rfl rfl

/-- Claim C5: on the table containing exactly the three fixed records
(life expectancies 60, 100, 13), the filtered query with threshold 50
returns exactly the Elephant and Turtle records (life expectancy 60 and
100) and not the Dog record (13). -/
theorem c5_filtered_query
    (db0 db1 db2 db3 : DB) (id1 id2 id3 : Nat)
    (hrows : db0.rows = [])
    (h1 : insertRow db0 "Elephant" "Savannah" (some 60) (some 1) =
      Except.ok (db1, id1))
    (h2 : insertRow db1 "Turtle" "Ocean" (some 100) (some 0) =
      Except.ok (db2, id2))
    (h3 : insertRow db2 "Dog" "Domestic" (some 13) (some 0) =
      Except.ok (db3, id3)) :
    selectOver db3 50 = Except.ok
      [{ id := id1, name := "Elephant", habitat := "Savannah",
         life_expectancy := some 60, in_danger := some 1 },
       { id := id2, name := "Turtle", habitat := "Ocean",
         life_expectancy := some 100, in_danger := some 0 }] := by
  obtain ⟨hmem, hrows3, e1, e2, e3, hseq⟩ :=
    three_inserts_shape hrows h1 h2 h3
  subst e1; subst e2
  simp [selectOver, hmem, hrows3, demoRows, rowMatchesOver]

/-- Witness for C5 at the concrete initial store `emptyDB`. -/
theorem c5_filtered_query_witness :
    selectOver demoDB 50 =
      Except.ok
        [{ id := 1, name := "Elephant", habitat := "Savannah",
           life_expectancy := some 60, in_danger := some 1 },
         { id := 2, name := "Turtle", habitat := "Ocean",
           life_expectancy := some 100, in_danger := some 0 }] :=
  c5_filtered_query emptyDB demoDB1 demoDB2 demoDB 1 2 3 rfl rfl rfl rfl

/-- Claim C6: the ensure-schema statement (`CREATE TABLE IF NOT EXISTS`)
is idempotent: from every store state, running it succeeds (no error),
running it again succeeds and leaves the state of the first run
unchanged, the number of `Animals` tables never exceeds one more than
zero-or-what-was-there (`count = max count 1`, so no second table is
ever created), and the rows and sequence counter are untouched. -/
theorem c6_create_table_idempotent (db : DB) :
    ∃ db', runCreateTable true db = Except.ok db' ∧
      runCreateTable true db' = Except.ok db' ∧
      db'.tables.count "Animals" = max (db.tables.count "Animals") 1 ∧
      db'.rows = db.rows ∧ db'.seq = db.seq := by
  by_cases hmem : "Animals" ∈ db.tables
  · refine ⟨db, by simp [runCreateTable, hmem],
      by simp [runCreateTable, hmem], ?_, rfl, rfl⟩
    have hpos : 0 < db.tables.count "Animals" := List.count_pos_iff.mpr hmem
    omega
  · refine ⟨{ db with tables := db.tables ++ ["Animals"] },
      by simp [runCreateTable, hmem], by simp [runCreateTable], ?_, rfl, rfl⟩
    have h0 : db.tables.count "Animals" = 0 := by
      simp [List.count_eq_zero, hmem]
    simp [List.count_append, h0]

/-- `updateRow` never touches the `id` field. -/
theorem updateRow_id (v : Int) (nm : String) (r : Row) :
    (updateRow v nm r).id = r.id := by
  unfold updateRow; split <;> rfl

/-- Claim C7: for every store satisfying the identifier invariant,
every operation of the script preserves it, and no operation ever
changes an identifier after assignment: an insert appends a fresh rowid
never seen before and keeps the existing identifiers unchanged, an
update keeps the identifier list exactly unchanged, a delete only
removes identifiers, create-table touches no rows, and the queries
return existing rows only. -/
theorem c7_id_invariant (db : DB) (hinv : Inv db) :
    (∀ n h le ind db' rid,
      insertRow db n h le ind = Except.ok (db', rid) →
      Inv db' ∧ db'.rows.map Row.id = db.rows.map Row.id ++ [rid] ∧
        rid ∉ db.rows.map Row.id) ∧
    (∀ v nm db' c, updateInDanger db v nm = Except.ok (db', c) →
      Inv db' ∧ db'.rows.map Row.id = db.rows.map Row.id) ∧
    (∀ nm db' c, deleteByName db nm = Except.ok (db', c) →
      Inv db' ∧ ∀ i, i ∈ db'.rows.map Row.id → i ∈ db.rows.map Row.id) ∧
    (∀ b db', runCreateTable b db = Except.ok db' →
      Inv db' ∧ db'.rows = db.rows) ∧
    (∀ t rows, selectOver db t = Except.ok rows →
      ∀ r, r ∈ rows → r ∈ db.rows) ∧
    (∀ rows, selectAll db = Except.ok rows → rows = db.rows) := by
  obtain ⟨hnd, hbound⟩ := hinv
  refine ⟨?_, ?_, ?_, ?_, ?_, ?_⟩
  · intro n h le ind db' rid hok
    obtain ⟨hmem, hrid, ht, hs, hr⟩ := insertRow_ok_inv hok
    have hfresh : db.seq + 1 ∉ db.rows.map Row.id := by
      simp only [List.mem_map, not_exists]
      intro r
      intro hcontra
      obtain ⟨hrm, hid⟩ := hcontra
      have := hbound r hrm
      omega
    refine ⟨⟨?_, ?_⟩, ?_, ?_⟩
    · rw [hr]
      simp only [List.map_append, List.map_cons, List.map_nil]
      exact List.nodup_append.mpr
        ⟨hnd, List.nodup_singleton _, by
          intro a ha hb
          simp at hb
          subst hb
          exact hfresh ha⟩
    · intro r hrm
      rw [hr] at hrm
      rw [hs]
      rcases List.mem_append.mp hrm with hold | hnew
      · have := hbound r hold; omega
      · simp at hnew; subst hnew; simp
    · rw [hr, hrid]; simp
    · rw [hrid]; exact hfresh
  · intro v nm db' c hok
    obtain ⟨hmem, ht, hs, hr, hc⟩ := updateInDanger_ok_inv hok
    have hmap : db'.rows.map Row.id = db.rows.map Row.id := by
      rw [hr, List.map_map]
      exact List.map_congr_left fun r _ => updateRow_id v nm r
    refine ⟨⟨hmap ▸ hnd, ?_⟩, hmap⟩
    intro r hrm
    rw [hr] at hrm
    rw [hs]
    obtain ⟨r0, hr0, hr0e⟩ := List.mem_map.mp hrm
    have hb := hbound r0 hr0
    have : r.id = r0.id := by rw [← hr0e, updateRow_id]
    omega
  · intro nm db' c hok
    obtain ⟨hmem, ht, hs, hr, hc⟩ := deleteByName_ok_inv hok
    have hsub : List.Sublist (db'.rows.map Row.id) (db.rows.map Row.id) := by
      rw [hr]
      exact (List.filter_sublist _).map Row.id
    refine ⟨⟨hnd.sublist hsub, ?_⟩, fun i hi => hsub.subset hi⟩
    intro r hrm
    rw [hr] at hrm
    rw [hs]
    exact hbound r (List.mem_of_mem_filter hrm)
  · intro b db' hok
    unfold runCreateTable at hok
    split at hok
    · split at hok
      · injection hok with hdb
        subst hdb
        exact ⟨⟨hnd, hbound⟩, rfl⟩
      · exact absurd hok (by simp)
    · injection hok with hdb
      subst hdb
      exact ⟨⟨hnd, hbound⟩, rfl⟩
  · intro t rows hok
    obtain ⟨hmem, hrws⟩ := selectOver_ok_inv hok
    intro r hrm
    rw [hrws] at hrm
    exact List.mem_of_mem_filter hrm
  · intro rows hok
    unfold selectAll at hok
    split at hok
    · injection hok with hrws
      exact hrws.symm
    · exact absurd hok (by simp)

/-- Witness for C7 at the concrete store `demoDB`. -/
theorem c7_id_invariant_witness :
    (∀ n h le ind db' rid,
      insertRow demoDB n h le ind = Except.ok (db', rid) →
      Inv db' ∧ db'.rows.map Row.id =
        demoDB.rows.map Row.id ++ [rid] ∧
        rid ∉ demoDB.rows.map Row.id) ∧
    (∀ v nm db' c,
      updateInDanger demoDB v nm = Except.ok (db', c) →
      Inv db' ∧ db'.rows.map Row.id = demoDB.rows.map Row.id) ∧
    (∀ nm db' c,
      deleteByName demoDB nm = Except.ok (db', c) →
      Inv db' ∧ ∀ i, i ∈ db'.rows.map Row.id →
        i ∈ demoDB.rows.map Row.id) ∧
    (∀ b db',
      runCreateTable b demoDB = Except.ok db' →
      Inv db' ∧ db'.rows = demoDB.rows) ∧
    (∀ t rows,
      selectOver demoDB t = Except.ok rows →
      ∀ r, r ∈ rows → r ∈ demoDB.rows) ∧
    (∀ rows,
      selectAll demoDB = Except.ok rows → rows = demoDB.rows) :=
  c7_id_invariant demoDB
    ⟨by simp [demoDB, demoRows], by
      intro r hr
      simp [demoDB, demoRows] at hr
      rcases hr with h | h | h <;> subst h <;> simp [demoDB]⟩

theorem get_of_eq_map {α β : Type} (f : α → β) (l : List α)
    (l' : List β) (h : l' = l.map f) (i : Nat) (hi : i < l.length)
    (hi' : i < l'.length) : l'.get ⟨i, hi'⟩ = f (l.get ⟨i, hi⟩) := by
  subst h
  simp

/-- Claim C9: the update statement (`UPDATE Animals SET in_danger = ?
WHERE name = ?` with `[1, "Dog"]`) is a frame: it keeps the number of
rows and their order, every row keeps its identifier, name, habitat and
life expectancy, every row not named "Dog" is entirely unchanged, and a
row named "Dog" only has its in-danger flag set to 1. -/
theorem c9_update_frame (db db' : DB) (c : Nat)
    (hok : updateInDanger db 1 "Dog" = Except.ok (db', c)) :
    db'.rows.length = db.rows.length ∧
    ∀ (i : Nat) (hi : i < db.rows.length) (hi' : i < db'.rows.length),
      (db'.rows.get ⟨i, hi'⟩).id = (db.rows.get ⟨i, hi⟩).id ∧
      (db'.rows.get ⟨i, hi'⟩).name = (db.rows.get ⟨i, hi⟩).name ∧
      (db'.rows.get ⟨i, hi'⟩).habitat = (db.rows.get ⟨i, hi⟩).habitat ∧
      (db'.rows.get ⟨i, hi'⟩).life_expectancy =
        (db.rows.get ⟨i, hi⟩).life_expectancy ∧
      ((db.rows.get ⟨i, hi⟩).name ≠ "Dog" →
        db'.rows.get ⟨i, hi'⟩ = db.rows.get ⟨i, hi⟩) ∧
      ((db.rows.get ⟨i, hi⟩).name = "Dog" →
        (db'.rows.get ⟨i, hi'⟩).in_danger = some 1) := by
  obtain ⟨hmem, ht, hs, hr, hc⟩ := updateInDanger_ok_inv hok
  have hlen : db'.rows.length = db.rows.length := by
    rw [hr]; exact List.length_map _ _
  refine ⟨hlen, ?_⟩
  intro i hi hi'
  have hget : db'.rows.get ⟨i, hi'⟩ =
      updateRow 1 "Dog" (db.rows.get ⟨i, hi⟩) :=
    get_of_eq_map (updateRow 1 "Dog") db.rows db'.rows hr i hi hi'
  rw [hget]
  unfold updateRow
  simp only [List.get_eq_getElem] at *
  by_cases hname : db.rows[i].name = "Dog"
  · simp [hname]
  · simp [hname]

/-- Witness for C9 at the concrete store `demoDB`. -/
theorem c9_update_frame_witness :
    demoUpdatedDB.rows.length = demoDB.rows.length ∧
    ∀ (i : Nat) (hi : i < demoDB.rows.length)
      (hi' : i < demoUpdatedDB.rows.length),
      (demoUpdatedDB.rows.get ⟨i, hi'⟩).id =
        (demoDB.rows.get ⟨i, hi⟩).id ∧
      (demoUpdatedDB.rows.get ⟨i, hi'⟩).name =
        (demoDB.rows.get ⟨i, hi⟩).name ∧
      (demoUpdatedDB.rows.get ⟨i, hi'⟩).habitat =
        (demoDB.rows.get ⟨i, hi⟩).habitat ∧
      (demoUpdatedDB.rows.get ⟨i, hi'⟩).life_expectancy =
        (demoDB.rows.get ⟨i, hi⟩).life_expectancy ∧
      ((demoDB.rows.get ⟨i, hi⟩).name ≠ "Dog" →
        demoUpdatedDB.rows.get ⟨i, hi'⟩ = demoDB.rows.get ⟨i, hi⟩) ∧
      ((demoDB.rows.get ⟨i, hi⟩).name = "Dog" →
        (demoUpdatedDB.rows.get ⟨i, hi'⟩).in_danger = some 1) :=
  c9_update_frame demoDB demoUpdatedDB 1
    (by simp [updateInDanger, demoDB, demoUpdatedDB, demoRows])

/-- Claim C10: the schema stores life expectancy as a nullable column,
and the filtered query with threshold 50 returns exactly the rows whose
life expectancy is present and strictly greater than 50; a row whose
life expectancy is NULL is never returned, and a record with NULL life
expectancy can be inserted. -/
theorem c10_select_over_null (db : DB) (rows : List Row)
    (hok : selectOver db 50 = Except.ok rows) :
    (∀ r : Row, r ∈ rows ↔
      (r ∈ db.rows ∧ ∃ v : Int, r.life_expectancy = some v ∧ 50 < v)) ∧
    (∀ r : Row, r ∈ rows → r.life_expectancy ≠ none) ∧
    (∀ (n hab : String) (ind : Option Int), ∃ db' rid,
      insertRow db n hab none ind = Except.ok (db', rid) ∧
      { id := rid, name := n, habitat := hab,
        life_expectancy := none, in_danger := ind } ∈ db'.rows) := by
  obtain ⟨hmem, hrws⟩ := selectOver_ok_inv hok
  have hmain : ∀ r : Row, r ∈ rows ↔
      (r ∈ db.rows ∧ ∃ v : Int, r.life_expectancy = some v ∧ 50 < v) := by
    intro r
    rw [hrws, List.mem_filter]
    constructor
    · rintro ⟨hrm, hmatch⟩
      refine ⟨hrm, ?_⟩
      unfold rowMatchesOver at hmatch
      cases hle : r.life_expectancy with
      | none => rw [hle] at hmatch; exact absurd hmatch (by simp)
      | some v =>
        rw [hle] at hmatch
        exact ⟨v, rfl, by simpa using hmatch⟩
    · rintro ⟨hrm, v, hle, hv⟩
      refine ⟨hrm, ?_⟩
      unfold rowMatchesOver
      rw [hle]
      simpa using hv
  refine ⟨hmain, ?_, ?_⟩
  · intro r hrm hnone
    obtain ⟨_, v, hle, _⟩ := (hmain r).mp hrm
    rw [hnone] at hle
    exact absurd hle (by simp)
  · intro n hab ind
    refine ⟨{ db with
        rows := db.rows ++
          [{ id := db.seq + 1, name := n, habitat := hab,
             life_expectancy := none, in_danger := ind }],
        seq := db.seq + 1 },
      db.seq + 1, by simp [insertRow, hmem], by simp⟩

/-- Witness for C10 at the concrete store `demoDB`, whose filtered
result is the Elephant and Turtle rows. -/
theorem c10_select_over_null_witness :
    (∀ r : Row, r ∈ (demoRows 0).filter (rowMatchesOver 50) ↔
      (r ∈ demoDB.rows ∧
        ∃ v : Int, r.life_expectancy = some v ∧ 50 < v)) ∧
    (∀ r : Row, r ∈ (demoRows 0).filter (rowMatchesOver 50) →
      r.life_expectancy ≠ none) ∧
    (∀ (n hab : String) (ind : Option Int), ∃ db' rid,
      insertRow demoDB n hab none ind = Except.ok (db', rid) ∧
      { id := rid, name := n, habitat := hab,
        life_expectancy := none, in_danger := ind } ∈ db'.rows) :=
  c10_select_over_null demoDB
    ((demoRows 0).filter (rowMatchesOver 50))
    (by simp [selectOver, demoDB])

/-! ## Per-step facts about the callbacks of the script -/

theorem openCallback_length (e : Option String) :
    (openCallback e).length = 1 := by
  cases e <;> rfl

theorem createTableStepRun_length (fault : Option String) (db : DB) :
    (createTableStepRun fault db).2.length = 1 := by
  unfold createTableStepRun
  split
  · rfl
  · split <;> rfl

theorem insertStepRun_length (label name habitat : String)
    (le ind : Option Int) (fault : Option String) (db : DB) :
    (insertStepRun label name habitat le ind fault db).2.length = 1 := by
  unfold insertStepRun
  split
  · rfl
  · split <;> rfl

theorem selectAllStepRun_length (fault : Option String) (db : DB) :
    (selectAllStepRun fault db).2.length = 1 := by
  unfold selectAllStepRun
  split
  · rfl
  · split <;> rfl

theorem selectOverStepRun_length (fault : Option String) (db : DB) :
    (selectOverStepRun fault db).2.length = 1 := by
  unfold selectOverStepRun
  split
  · rfl
  · split <;> rfl

theorem updateStepRun_length (fault : Option String) (db : DB) :
    (updateStepRun fault db).2.length = 1 := by
  unfold updateStepRun
  split
  · rfl
  · split <;> rfl

theorem deleteStepRun_length (fault : Option String) (db : DB) :
    (deleteStepRun fault db).2.length = 1 := by
  unfold deleteStepRun
  split
  · rfl
  · split <;> rfl

theorem closeStepRun_length (fault : Option String) (db : DB) :
    (closeStepRun fault db).2.length = 1 := by
  cases fault <;> rfl

theorem createTableStepRun_fault (m : String) (db : DB) :
    createTableStepRun (some m) db =
      (db, [LogEntry.errorMsg ("Error creating table: " ++ m)]) := rfl

theorem insertStepRun_fault (label name habitat : String)
    (le ind : Option Int) (m : String) (db : DB) :
    insertStepRun label name habitat le ind (some m) db =
      (db, [LogEntry.errorMsg ("Error inserting " ++ label ++ ": " ++ m)]) :=
  rfl

theorem selectAllStepRun_fault (m : String) (db : DB) :
    selectAllStepRun (some m) db =
      (db, [LogEntry.errorMsg ("Error fetching data: " ++ m)]) := rfl

theorem selectOverStepRun_fault (m : String) (db : DB) :
    selectOverStepRun (some m) db =
      (db, [LogEntry.errorMsg ("Error fetching data: " ++ m)]) := rfl

theorem updateStepRun_fault (m : String) (db : DB) :
    updateStepRun (some m) db =
      (db, [LogEntry.errorMsg ("Error updating data: " ++ m)]) := rfl

theorem deleteStepRun_fault (m : String) (db : DB) :
    deleteStepRun (some m) db =
      (db, [LogEntry.errorMsg ("Error deleting data: " ++ m)]) := rfl

theorem closeStepRun_fault (m : String) (db : DB) :
    closeStepRun (some m) db =
      (db, [LogEntry.errorMsg ("Error closing the database: " ++ m)]) := rfl

/-- Claim C8: for every fault assignment and every start store, the
exit status of the script is 0 (no failure is re-raised or aggregated), all
ten steps still run and each writes exactly one console line (no
failure prevents the other steps from being issued), and every
engine-reported failure is handled at its point of occurrence by
writing its diagnostic message to the log. -/
theorem c8_error_handling (f : Faults) (db0 : DB) :
    (runScript f db0).exitCode = 0 ∧
    (runScript f db0).logs.length = 10 ∧
    (∀ m, f.openErr = some m →
      LogEntry.errorMsg ("Error opening database: " ++ m) ∈
        (runScript f db0).logs) ∧
    (∀ m, f.tableErr = some m →
      LogEntry.errorMsg ("Error creating table: " ++ m) ∈
        (runScript f db0).logs) ∧
    (∀ m, f.elephantErr = some m →
      LogEntry.errorMsg ("Error inserting Elephant: " ++ m) ∈
        (runScript f db0).logs) ∧
    (∀ m, f.turtleErr = some m →
      LogEntry.errorMsg ("Error inserting Turtle: " ++ m) ∈
        (runScript f db0).logs) ∧
    (∀ m, f.dogErr = some m →
      LogEntry.errorMsg ("Error inserting Dog: " ++ m) ∈
        (runScript f db0).logs) ∧
    (∀ m, f.selectAllErr = some m →
      LogEntry.errorMsg ("Error fetching data: " ++ m) ∈
        (runScript f db0).logs) ∧
    (∀ m, f.selectOverErr = some m →
      LogEntry.errorMsg ("Error fetching data: " ++ m) ∈
        (runScript f db0).logs) ∧
    (∀ m, f.updateErr = some m →
      LogEntry.errorMsg ("Error updating data: " ++ m) ∈
        (runScript f db0).logs) ∧
    (∀ m, f.deleteErr = some m →
      LogEntry.errorMsg ("Error deleting data: " ++ m) ∈
        (runScript f db0).logs) ∧
    (∀ m, f.closeErr = some m →
      LogEntry.errorMsg ("Error closing the database: " ++ m) ∈
        (runScript f db0).logs) := by
  refine ⟨rfl, ?_, ?_, ?_, ?_, ?_, ?_, ?_, ?_, ?_, ?_, ?_⟩
  · simp [runScript, openCallback_length, createTableStepRun_length,
      insertStepRun_length, selectAllStepRun_length,
      selectOverStepRun_length, updateStepRun_length,
      deleteStepRun_length, closeStepRun_length]
  · intro m hm
    simp [runScript, hm, openCallback, List.mem_append]
  · intro m hm
    simp [runScript, hm, createTableStepRun_fault, List.mem_append]
  · intro m hm
    simp [runScript, hm, insertStepRun_fault, List.mem_append]
  · intro m hm
    simp [runScript, hm, insertStepRun_fault, List.mem_append]
  · intro m hm
    simp [runScript, hm, insertStepRun_fault, List.mem_append]
  · intro m hm
    simp [runScript, hm, selectAllStepRun_fault, List.mem_append]
  · intro m hm
    simp [runScript, hm, selectOverStepRun_fault, List.mem_append]
  · intro m hm
    simp [runScript, hm, updateStepRun_fault, List.mem_append]
  · intro m hm
    simp [runScript, hm, deleteStepRun_fault, List.mem_append]
  · intro m hm
    simp [runScript, hm, closeStepRun_fault, List.mem_append]

/-- Witness for C8: with every statement failing with message `boom`
and the empty start store, the exit status is 0, ten console lines are
written, and the diagnostic of each step appears in the log. -/
theorem c8_error_handling_witness :
    (runScript allFaults emptyDB).exitCode = 0 ∧
    (runScript allFaults emptyDB).logs.length = 10 ∧
    LogEntry.errorMsg "Error opening database: boom" ∈
      (runScript allFaults emptyDB).logs ∧
    LogEntry.errorMsg "Error creating table: boom" ∈
      (runScript allFaults emptyDB).logs ∧
    LogEntry.errorMsg "Error inserting Elephant: boom" ∈
      (runScript allFaults emptyDB).logs ∧
    LogEntry.errorMsg "Error inserting Turtle: boom" ∈
      (runScript allFaults emptyDB).logs ∧
    LogEntry.errorMsg "Error inserting Dog: boom" ∈
      (runScript allFaults emptyDB).logs ∧
    LogEntry.errorMsg "Error fetching data: boom" ∈
      (runScript allFaults emptyDB).logs ∧
    LogEntry.errorMsg "Error updating data: boom" ∈
      (runScript allFaults emptyDB).logs ∧
    LogEntry.errorMsg "Error deleting data: boom" ∈
      (runScript allFaults emptyDB).logs ∧
    LogEntry.errorMsg "Error closing the database: boom" ∈
      (runScript allFaults emptyDB).logs := by
  obtain ⟨h0, hlen, ho, ht, he, htu, hd, hsa, hso, hu, hde, hc⟩ :=
    c8_error_handling allFaults emptyDB
  exact ⟨h0, hlen, ho "boom" rfl, ht "boom" rfl, he "boom" rfl,
    htu "boom" rfl, hd "boom" rfl, hsa "boom" rfl, hu "boom" rfl,
    hde "boom" rfl, hc "boom" rfl⟩

end AnimalsDB
